import Mathlib

/-!
Shallow embedding of the core of `src/main.py` (a YouTube-channel-to-RSS
resolver) and proofs about its behaviour.

The embedding models:
* `get_youtube_channel_id` (main.py lines 216-257): extraction of a channel
  identifier from a page document, via the canonical-URL meta field and a
  scan of script payloads.  A page document is abstracted as the content of
  its first `og:url` meta tag (if any) together with the list of its script
  tags rendered as strings, in document order; the regex searches
  `/channel/([UC][a-zA-Z0-9_-]+)`, `"channel_id":"([UC][a-zA-Z0-9_-]+)"` and
  `"channelId":"([UC][a-zA-Z0-9_-]+)"` are implemented with Python
  `re.search` leftmost-match semantics (for these patterns greedy matching
  with backtracking coincides with taking the maximal run of class
  characters, since the character after any shorter run is again a class
  character and hence can never be the required closing quote).
* the channel-id cache (`get_cached_channel_id`, `cache_channel_id`,
  main.py lines 90-128), with the JSON backing store abstracted as an
  association list from URL strings to cache values (a bare string or a
  dict of string fields), and Python truthiness made explicit.
* `retry_request` (main.py lines 143-174) over an abstract per-attempt
  outcome function, recording the sequence of backoff sleeps.
* `fetch_rss_feed_content` (main.py lines 275-324) error handling, with the
  network/XML layer abstracted so that a successful body is already the
  parsed list of entries.
* `filter_videos` (main.py lines 327-380), with `datetime.strptime` on the
  formats `%Y-%m-%d` and `%Y-%m-%dT%H:%M:%S%z` modelled after CPython's
  `_strptime` field regexes (including the validation performed by the
  `datetime` constructor), and exceptions modelled with `Except`.
* the channel-id resolution step of `__main__` (main.py lines 536-556),
  with the number of page fetches recorded explicitly.
-/

/-! ## Character classes and regex-style capture search -/

/-- The character class `[a-zA-Z0-9_-]` of the extraction regexes. -/
def urlSafeChar (c : Char) : Bool :=
  ('a' ≤ c && c ≤ 'z') || ('A' ≤ c && c ≤ 'Z') || ('0' ≤ c && c ≤ '9') ||
    c = '_' || c = '-'

/-- The character class `[UC]` appearing in the extraction regexes: one
single character that is either 'U' or 'C' (not the literal prefix "UC"). -/
def ucClassChar (c : Char) : Bool := c = 'U' || c = 'C'

/-- The group-and-tail part of one anchored match attempt: after the `[UC]`
character `c`, the greedy `+` takes the maximal URL-safe run of `rest`
(which must be nonempty), and when `rq` is true a closing double quote must
follow it (no shorter run can be rescued by backtracking, because the
character after a shorter run is URL-safe and hence not a quote). -/
def captureCore (rq : Bool) (c : Char) (rest : List Char) : Option (List Char) :=
  match rest.takeWhile urlSafeChar with
  | [] => none
  | r0 :: run =>
    if rq then
      match rest.drop (r0 :: run).length with
      | '\"' :: _ => some (c :: r0 :: run)
      | _ => none
    else some (c :: r0 :: run)

/-- Attempt to match, at the start of `l`, the literal `lit` followed by the
capture group `([UC][a-zA-Z0-9_-]+)`, followed (when `rq` is true) by a
closing double quote.  Returns the captured group. Models one anchoring
position of Python `re.search` for the three extraction patterns. -/
def captureAt (lit : List Char) (rq : Bool) (l : List Char) : Option (List Char) :=
  if lit.isPrefixOf l then
    match l.drop lit.length with
    | [] => none
    | c :: rest => if ucClassChar c then captureCore rq c rest else none
  else none

/-- Leftmost-match search: try `captureAt` at every position of `l`, left to
right, returning the first successful capture (Python `re.search`). -/
def searchCapture (lit : List Char) (rq : Bool) : List Char → Option (List Char)
  | [] => captureAt lit rq []
  | l@(_ :: t) =>
    match captureAt lit rq l with
    | some r => some r
    | none => searchCapture lit rq t

/-- The literal part of the pattern `/channel/([UC][a-zA-Z0-9_-]+)`. -/
def channelPathLit : List Char := "/channel/".data

/-- The literal part of the pattern for the snake-case key. -/
def channelIdSnakeLit : List Char := "\"channel_id\":\"".data

/-- The literal part of the pattern for the camel-case key. -/
def channelIdCamelLit : List Char := "\"channelId\":\"".data

/-- Search a canonical-URL string for `/channel/([UC][a-zA-Z0-9_-]+)`
(main.py line 236). -/
def searchChannelPath (s : String) : Option String :=
  (searchCapture channelPathLit false s.data).map List.asString

/-- Search one script payload: first the snake-case pattern (main.py line
249), then the camel-case pattern (main.py line 253); the first that
matches anywhere in the payload wins. -/
def findIdInScript (s : String) : Option String :=
  match searchCapture channelIdSnakeLit true s.data with
  | some r => some r.asString
  | none => (searchCapture channelIdCamelLit true s.data).map List.asString

/-! ## Page documents and get_youtube_channel_id -/

/-- Abstraction of a fetched page document: the content of its first
`og:url` meta tag (when such a tag with a content attribute exists) and the
string renderings of its script tags, in document order. -/
structure Page where
  ogUrl : Option String
  scripts : List String
deriving DecidableEq, Repr

/-- The script-tag loop of main.py lines 246-255: return the first script
payload (in document order) in which either pattern matches. -/
def scanScripts : List String → Option String
  | [] => none
  | s :: rest =>
    match findIdInScript s with
    | some cid => some cid
    | none => scanScripts rest

/-- Embedding of `get_youtube_channel_id` (main.py lines 216-257).  `none`
input models the `html_source_code is None` case.  Method 1 consults the
canonical-URL meta field; a `/channel/` match returns immediately, while a
handle-only URL falls through (the handle regex match at lines 240-243 has
no effect: its body is `pass`).  Method 2 scans the script payloads. -/
def get_youtube_channel_id : Option Page → Option String
  | none => none
  | some p =>
    match p.ogUrl with
    | some og =>
      match searchChannelPath og with
      | some cid => some cid
      | none => scanScripts p.scripts
    | none => scanScripts p.scripts

/-! ## Cache store -/

/-- A JSON value stored in the cache file for one URL key: either a bare
identifier string (legacy format) or an object with string fields (current
format, written as `{"channel_id": ..., "timestamp": ...}`). -/
inductive CacheVal where
  | str (s : String)
  | dict (fields : List (String × String))
deriving DecidableEq, Repr

/-- Python truthiness of a cache value: the empty string and the empty
dict are falsy. -/
def truthyVal : CacheVal → Bool
  | .str s => !(s = "")
  | .dict fs => !fs.isEmpty

/-- The cache JSON object, abstracted as an association list (first key
occurrence wins, mirroring the uniqueness of JSON object keys). -/
def Cache := List (String × CacheVal)

/-- Dictionary read `cache.get(url)`. -/
def lookupAssoc : List (String × CacheVal) → String → Option CacheVal
  | [], _ => none
  | (k, v) :: rest, key => if k = key then some v else lookupAssoc rest key

/-- Dictionary write `cache[url] = v` (overwrite or append). -/
def assocSet : List (String × CacheVal) → String → CacheVal → List (String × CacheVal)
  | [], key, v => [(key, v)]
  | (k, w) :: rest, key, v =>
    if k = key then (key, v) :: rest else (k, w) :: assocSet rest key v

/-- Lookup of the first field with the given key in a JSON object, and the
membership test `key in dict` is `(fieldLookup fs key).isSome`. -/
def fieldLookup : List (String × String) → String → Option String
  | [], _ => none
  | (k, v) :: rest, key => if k = key then some v else fieldLookup rest key

/-- Embedding of `get_cached_channel_id` (main.py lines 90-112).  Returns
the raw Python value: for a truthy dict entry with a `channel_id` field the
field value (a string); for any other truthy entry the entry itself; `none`
when caching is disabled, the key is missing, or the entry is falsy. -/
def get_cached_channel_id (cache : List (String × CacheVal)) (url : String)
    (use_cache : Bool) : Option CacheVal :=
  if !use_cache then none
  else
    match lookupAssoc cache url with
    | none => none
    | some entry =>
      if truthyVal entry then
        match entry with
        | .dict fs =>
          match fieldLookup fs "channel_id" with
          | some cid => some (.str cid)
          | none => some (.dict fs)
        | .str s => some (.str s)
      else none

/-- Embedding of `cache_channel_id` (main.py lines 115-128): store the
structured record for `url`; `now` stands for `datetime.now().isoformat()`. -/
def cache_channel_id (cache : List (String × CacheVal)) (url cid now : String) :
    List (String × CacheVal) :=
  assocSet cache url (.dict [("channel_id", cid), ("timestamp", now)])

/-! ## Retrying fetcher -/

/-- Outcome of one attempt of the wrapped request function: a success
value, or one of the `requests` exceptions distinguished by
`retry_request` and the fetchers. -/
inductive FetchOutcome (α : Type) where
  | ok (a : α)
  | timeout
  | connError
  | httpError (status : Nat)
deriving DecidableEq, Repr

/-- An exception propagating out of `retry_request`. -/
inductive ReqError where
  | timeout
  | connError
  | httpError (status : Nat)
deriving DecidableEq, Repr

/-- A transient error in the sense of the retry policy. -/
def ReqError.transient : ReqError → Bool
  | .timeout => true
  | .connError => true
  | .httpError _ => false

/-- The loop body of `retry_request` (main.py lines 156-174), with the
attempt counter made explicit and `remaining = max_retries - attempt`.
Returns the final outcome (`.ok none` models falling off the loop and
returning `None`, which happens only when `max_retries = 0`) together with
the list of backoff sleeps performed, in order: on the k-th failed attempt
(0-indexed) that is not the last, `time.sleep(backoff_factor ** k)`. -/
def retryLoop {α : Type} (f : Nat → FetchOutcome α) (backoff_factor : Nat)
    (attempt : Nat) : Nat → Except ReqError (Option α) × List Nat
  | 0 => (.ok none, [])
  | remaining + 1 =>
    match f attempt with
    | .ok a => (.ok (some a), [])
    | .timeout =>
      if remaining = 0 then (.error .timeout, [])
      else
        let r := retryLoop f backoff_factor (attempt + 1) remaining
        (r.1, backoff_factor ^ attempt :: r.2)
    | .connError =>
      if remaining = 0 then (.error .connError, [])
      else
        let r := retryLoop f backoff_factor (attempt + 1) remaining
        (r.1, backoff_factor ^ attempt :: r.2)
    | .httpError s => (.error (.httpError s), [])

/-- Embedding of `retry_request` (main.py lines 143-174): the attempt
function `f` gives the outcome of the k-th call of `func`. -/
def retry_request {α : Type} (f : Nat → FetchOutcome α) (max_retries : Nat)
    (backoff_factor : Nat) : Except ReqError (Option α) × List Nat :=
  retryLoop f backoff_factor 0 max_retries

/-! ## strptime on the two date formats -/

/-- ASCII decimal digit test. -/
def isDig (c : Char) : Bool := '0' ≤ c && c ≤ '9'

/-- Value of an ASCII digit. -/
def dVal (c : Char) : Nat := c.toNat - 48

/-- The `%Y` field regex of CPython `_strptime`: exactly four digits. -/
def parseYearField : List Char → Option (Nat × List Char)
  | a :: b :: c :: d :: rest =>
    if isDig a && isDig b && isDig c && isDig d then
      some (dVal a * 1000 + dVal b * 100 + dVal c * 10 + dVal d, rest)
    else none
  | _ => none

/-- The `%m` field regex `1[0-2]|0[1-9]|[1-9]`, with the ordered-alternation
semantics of the regex engine (for the formats used here a shorter
alternative can never rescue a failed continuation, because every field is
followed by a non-digit literal). -/
def parseMonthField : List Char → Option (Nat × List Char)
  | '1' :: b :: rest =>
    if '0' ≤ b && b ≤ '2' then some (10 + dVal b, rest)
    else some (1, b :: rest)
  | '0' :: b :: rest =>
    if '1' ≤ b && b ≤ '9' then some (dVal b, rest) else none
  | c :: rest => if '1' ≤ c && c ≤ '9' then some (dVal c, rest) else none
  | [] => none

/-- The `%d` field regex `3[01]|[12]\d|0[1-9]|[1-9]`. -/
def parseDayField : List Char → Option (Nat × List Char)
  | '3' :: b :: rest =>
    if b = '0' || b = '1' then some (30 + dVal b, rest)
    else some (3, b :: rest)
  | c :: b :: rest =>
    if (c = '1' || c = '2') && isDig b then some (dVal c * 10 + dVal b, rest)
    else if c = '0' then
      if '1' ≤ b && b ≤ '9' then some (dVal b, rest) else none
    else if '1' ≤ c && c ≤ '9' then some (dVal c, b :: rest)
    else none
  | [c] => if '1' ≤ c && c ≤ '9' then some (dVal c, []) else none
  | [] => none

/-- The `%H` field regex `2[0-3]|[0-1]\d|\d`. -/
def parseHourField : List Char → Option (Nat × List Char)
  | '2' :: b :: rest =>
    if '0' ≤ b && b ≤ '3' then some (20 + dVal b, rest)
    else some (2, b :: rest)
  | c :: b :: rest =>
    if (c = '0' || c = '1') && isDig b then some (dVal c * 10 + dVal b, rest)
    else if isDig c then some (dVal c, b :: rest)
    else none
  | [c] => if isDig c then some (dVal c, []) else none
  | [] => none

/-- The `%M` field regex `[0-5]\d|\d`. -/
def parseMinuteField : List Char → Option (Nat × List Char)
  | c :: b :: rest =>
    if ('0' ≤ c && c ≤ '5') && isDig b then some (dVal c * 10 + dVal b, rest)
    else if isDig c then some (dVal c, b :: rest)
    else none
  | [c] => if isDig c then some (dVal c, []) else none
  | [] => none

/-- The `%S` field regex `6[01]|[0-5]\d|\d` (the regex admits leap seconds;
the `datetime` constructor then rejects them). -/
def parseSecondField : List Char → Option (Nat × List Char)
  | '6' :: b :: rest =>
    if b = '0' || b = '1' then some (60 + dVal b, rest)
    else some (6, b :: rest)
  | c :: b :: rest =>
    if ('0' ≤ c && c ≤ '5') && isDig b then some (dVal c * 10 + dVal b, rest)
    else if isDig c then some (dVal c, b :: rest)
    else none
  | [c] => if isDig c then some (dVal c, []) else none
  | [] => none

/-- Two arbitrary digits (the hour part of a `%z` offset). -/
def parseTwoDigits : List Char → Option (Nat × List Char)
  | a :: b :: rest =>
    if isDig a && isDig b then some (dVal a * 10 + dVal b, rest) else none
  | _ => none

/-- The sub-pattern `[0-5]\d` (minutes or seconds of a `%z` offset). -/
def parseMinSec : List Char → Option (Nat × List Char)
  | a :: b :: rest =>
    if ('0' ≤ a && a ≤ '5') && isDig b then some (dVal a * 10 + dVal b, rest)
    else none
  | _ => none

/-- The optional trailing seconds group `(:?[0-5]\d(\.\d\x7b1,6\x7d)?)?` of
the `%z` regex: consume it greedily when it matches, otherwise leave the
input untouched. -/
def consumeTzSeconds (l : List Char) : List Char :=
  let l1 := match l with
    | ':' :: t => t
    | _ => l
  match parseMinSec l1 with
  | none => l
  | some (_, r) =>
    match r with
    | '.' :: t =>
      let ds := t.takeWhile isDig
      if ds.isEmpty then r else t.drop (min ds.length 6)
    | _ => r

/-- The `%z` field regex `[+-]\d\d:?[0-5]\d(...)?|Z` (the `Z` alternative is
case-sensitive).  Returns the absolute offset hours (for the later range
check) and the rest of the input. -/
def parseTzField : List Char → Option (Nat × List Char)
  | 'Z' :: rest => some (0, rest)
  | c :: rest =>
    if c = '+' || c = '-' then
      match parseTwoDigits rest with
      | none => none
      | some (hh, r1) =>
        let r2 := match r1 with
          | ':' :: t => t
          | _ => r1
        match parseMinSec r2 with
        | none => none
        | some (_, r3) => some (hh, consumeTzSeconds r3)
    else none
  | [] => none

/-- A calendar date, the value of Python `datetime.date()` (the naive field
values — no timezone conversion is performed by `.date()`). -/
structure Date where
  y : Nat
  m : Nat
  d : Nat
deriving DecidableEq, Repr

/-- Gregorian leap-year rule used by `datetime`. -/
def isLeapYear (y : Nat) : Bool := y % 4 = 0 && (y % 100 ≠ 0 || y % 400 = 0)

/-- Length of a month, as validated by the `datetime` constructor. -/
def daysInMonth (y m : Nat) : Nat :=
  if m = 2 then (if isLeapYear y then 29 else 28)
  else if m = 4 || m = 6 || m = 9 || m = 11 then 30
  else 31

/-- The validation performed by the `datetime` constructor on the fields
relevant to `%Y-%m-%d` (month range is already enforced by the regex). -/
def validYMD (y m d : Nat) : Bool :=
  1 ≤ y && 1 ≤ d && d ≤ daysInMonth y m

/-- `datetime.strptime(s, "%Y-%m-%d").date()`: anchored full match of the
compiled format regex, then constructor validation.  `none` models the
`ValueError` raised on failure. -/
def strptimeDate (s : String) : Option Date :=
  match parseYearField s.data with
  | none => none
  | some (y, r1) =>
    match r1 with
    | '-' :: r2 =>
      match parseMonthField r2 with
      | none => none
      | some (m, r3) =>
        match r3 with
        | '-' :: r4 =>
          match parseDayField r4 with
          | none => none
          | some (d, r5) =>
            if r5.isEmpty && validYMD y m d then some ⟨y, m, d⟩ else none
        | _ => none
    | _ => none

/-- `datetime.strptime(s, "%Y-%m-%dT%H:%M:%S%z").date()`: anchored full
match (the literal `T` is matched case-insensitively because `_strptime`
compiles with `IGNORECASE`; the `Z` offset stays case-sensitive), then
constructor validation (leap seconds and out-of-range offsets raise).
Returns the naive calendar date, which is what `filter_videos` compares. -/
def strptimeDateTz (s : String) : Option Date :=
  match parseYearField s.data with
  | none => none
  | some (y, r1) =>
    match r1 with
    | '-' :: r2 =>
      match parseMonthField r2 with
      | none => none
      | some (m, r3) =>
        match r3 with
        | '-' :: r4 =>
          match parseDayField r4 with
          | none => none
          | some (d, r5) =>
            match r5 with
            | tc :: r6 =>
              if tc = 'T' || tc = 't' then
                match parseHourField r6 with
                | none => none
                | some (_, r7) =>
                  match r7 with
                  | ':' :: r8 =>
                    match parseMinuteField r8 with
                    | none => none
                    | some (_, r9) =>
                      match r9 with
                      | ':' :: r10 =>
                        match parseSecondField r10 with
                        | none => none
                        | some (sec, r11) =>
                          match parseTzField r11 with
                          | none => none
                          | some (offh, r12) =>
                            if r12.isEmpty && sec ≤ 59 && offh ≤ 23 &&
                                validYMD y m d then
                              some ⟨y, m, d⟩
                            else none
                      | _ => none
                  | _ => none
              else none
            | [] => none
        | _ => none
    | _ => none

/-! ## Feed entries and filter_videos -/

/-- A feed entry as consumed by `filter_videos`: the text of its `title`
and `published` elements and the `href` of its `link` element.  The
dictionaries built at main.py line 378 carry exactly these three fields, so
the same structure also serves as the output record. -/
structure Entry where
  title : String
  published : String
  link : String
deriving DecidableEq, Repr

/-- Comparison of Python `date` values (lexicographic on the fields). -/
def dateLt (a b : Date) : Bool :=
  a.y < b.y || (a.y = b.y && (a.m < b.m || (a.m = b.m && a.d < b.d)))

/-- Non-strict date comparison. -/
def dateLe (a b : Date) : Bool := !dateLt b a

/-- Python `str.lower()` followed by conversion to a character list
(modelled with ASCII-faithful per-character lowering). -/
def strLower (s : String) : List Char := s.data.map Char.toLower

/-- Python substring containment `needle in hay`. -/
def containsSub (needle : List Char) : List Char → Bool
  | [] => needle.isEmpty
  | l@(_ :: t) => needle.isPrefixOf l || containsSub needle t

/-- An exception escaping `filter_videos`: a `ValueError` from one of the
four `strptime` calls, or the `TypeError`/`AttributeError` raised when
`filter_value` is `None` but `filter_by` demands it. -/
inductive FilterError where
  | badAfterDate
  | badBeforeDate
  | badPublished
  | missingFilterValue
  | badFilterValue
deriving DecidableEq, Repr

/-- The bound parsing of main.py lines 351-352:
`datetime.strptime(x, "%Y-%m-%d").date() if x else None`.  An absent or
empty (falsy) string yields no bound; an unparseable nonempty string
raises. -/
def parseBound (err : FilterError) : Option String → Except FilterError (Option Date)
  | none => .ok none
  | some s =>
    if s = "" then .ok none
    else
      match strptimeDate s with
      | some d => .ok (some d)
      | none => .error err

/-- One iteration of the entry loop of `filter_videos` (main.py lines
354-378), mirroring the `continue` structure: date-range tests first, then
the legacy exact date filter (whose `strptime(filter_value)` runs only when
the entry has survived the range tests), then the legacy title filter.
`restRes` is the result of the loop on the remaining entries; every
raising branch ignores it, so composing the steps right-to-left computes
exactly what the sequential loop (which stops at the first raise)
computes. -/
def filterEntryStep (filter_by filter_value : Option String)
    (after_dt before_dt : Option Date) (e : Entry)
    (restRes : Except FilterError (List Entry)) : Except FilterError (List Entry) :=
  match strptimeDateTz e.published with
  | none => .error .badPublished
  | some d =>
    if after_dt.any (fun a => dateLt d a) then restRes
    else if before_dt.any (fun b => dateLt b d) then restRes
    else if filter_by = some "date" then
      match filter_value with
      | none => .error .missingFilterValue
      | some v =>
        match strptimeDate v with
        | none => .error .badFilterValue
        | some fd => if d = fd then restRes.map (e :: ·) else restRes
    else if filter_by = some "title" then
      match filter_value with
      | none => .error .missingFilterValue
      | some v =>
        if containsSub (strLower v) (strLower e.title) then restRes.map (e :: ·)
        else restRes
    else restRes.map (e :: ·)

/-- The entry loop of `filter_videos` (main.py lines 354-378). -/
def filterLoop (filter_by filter_value : Option String)
    (after_dt before_dt : Option Date) : List Entry → Except FilterError (List Entry)
  | [] => .ok []
  | e :: rest =>
    filterEntryStep filter_by filter_value after_dt before_dt e
      (filterLoop filter_by filter_value after_dt before_dt rest)

/-- Embedding of `filter_videos` (main.py lines 327-380). -/
def filter_videos (entries : List Entry) (filter_by filter_value : Option String)
    (after_date before_date : Option String) : Except FilterError (List Entry) :=
  match parseBound .badAfterDate after_date with
  | .error e => .error e
  | .ok after_dt =>
    match parseBound .badBeforeDate before_date with
    | .error e => .error e
    | .ok before_dt => filterLoop filter_by filter_value after_dt before_dt entries

/-! ## fetch_rss_feed_content and the URL builder -/

/-- The user-visible classification of a feed fetch (main.py lines
308-324): success, or which error handler fired. -/
inductive FeedMsg where
  | success
  | timeoutMsg
  | notFound404
  | rateLimited429
  | httpOtherMsg (status : Nat)
  | requestErrorMsg
deriving DecidableEq, Repr

/-- Embedding of `fetch_rss_feed_content` (main.py lines 275-324), with the
XML layer abstracted: a successful body is already the parsed list of
`entry` elements, of which the first `limit` are kept (line 306).  A
`ConnectionError` escaping the retry loop is caught by the generic
`RequestException` handler (there is no dedicated handler in this
function).  The third component records the backoff sleeps performed. -/
def fetch_rss_feed_content (f : Nat → FetchOutcome (List Entry)) (limit : Nat) :
    Option (List Entry) × FeedMsg × List Nat :=
  match retry_request f 3 2 with
  | (.ok none, ws) => (none, .success, ws)
  | (.ok (some entries), ws) => (some (entries.take limit), .success, ws)
  | (.error .timeout, ws) => (none, .timeoutMsg, ws)
  | (.error .connError, ws) => (none, .requestErrorMsg, ws)
  | (.error (.httpError s), ws) =>
    if s = 404 then (none, .notFound404, ws)
    else if s = 429 then (none, .rateLimited429, ws)
    else (none, .httpOtherMsg s, ws)

/-- Embedding of `create_rss_feed_url` (main.py lines 260-272). -/
def create_rss_feed_url (cid : String) : Option String :=
  if cid = "" then none
  else some ("https://www.youtube.com/feeds/videos.xml?channel_id=" ++ cid)

/-! ## The channel-id resolution step of the main program -/

/-- Truthiness of the value bound to `channel_id` after the cache lookup. -/
def channelIdTruthy : Option CacheVal → Bool
  | none => false
  | some v => truthyVal v

/-- The cache-miss path of `__main__` (main.py lines 544-556): fetch the
page (the `Option Page` argument is the outcome of
`get_youtube_source_code`, `none` meaning a failed or empty fetch, in which
case the program exits), extract the channel id, and cache it when caching
is enabled.  The last component counts page fetches performed (here 1). -/
def resolveFetchPath (cache : List (String × CacheVal)) (url : String)
    (use_cache : Bool) (page : Option Page) (now : String) :
    Option CacheVal × List (String × CacheVal) × Nat :=
  match page with
  | none => (none, cache, 1)
  | some p =>
    match get_youtube_channel_id (some p) with
    | some cid =>
      if !(cid = "") && use_cache then
        (some (.str cid), cache_channel_id cache url cid now, 1)
      else (some (.str cid), cache, 1)
    | none => (none, cache, 1)

/-- The channel-id resolution of `__main__` (main.py lines 536-556): the
cache is consulted first; a truthy cached value is used with no page fetch
(count 0); otherwise the fetch path runs (count 1). -/
def resolveChannelId (cache : List (String × CacheVal)) (url : String)
    (use_cache : Bool) (page : Option Page) (now : String) :
    Option CacheVal × List (String × CacheVal) × Nat :=
  let cached := get_cached_channel_id cache url use_cache
  if channelIdTruthy cached then (cached, cache, 0)
  else resolveFetchPath cache url use_cache page now

/-! ## Shape of extracted identifiers -/

/-- The identifier shape of the spec data model, with the regex-class
semantics the pattern `^[UC][A-Za-z0-9_-]+$` actually has: one character
that is 'U' or 'C', then at least one URL-safe character. -/
def matchesIdClassPattern (s : String) : Bool :=
  match s.data with
  | [] => false
  | c :: rest => ucClassChar c && !rest.isEmpty && rest.all urlSafeChar

/-- A successful capture core has a nonempty URL-safe run after the class
character. -/
theorem captureCore_shape {rq : Bool} {c : Char} {rest cap : List Char}
    (h : captureCore rq c rest = some cap) :
    ∃ run, cap = c :: run ∧ run ≠ [] ∧ run.all urlSafeChar = true := by
  unfold captureCore at h
  split at h
  · exact absurd h (by simp)
  · rename_i r0 run heq
    have hall : (r0 :: run).all urlSafeChar = true := by
      rw [← heq]
      exact List.all_eq_true.mpr fun x hx => List.mem_takeWhile_imp hx
    split at h
    · split at h
      · cases h
        exact ⟨r0 :: run, rfl, by simp, hall⟩
      · exact absurd h (by simp)
    · cases h
      exact ⟨r0 :: run, rfl, by simp, hall⟩

/-- A successful capture has the class shape: one `[UC]` character and a
nonempty URL-safe run. -/
theorem captureAt_shape {lit : List Char} {rq : Bool} {l cap : List Char}
    (h : captureAt lit rq l = some cap) :
    ∃ c run, cap = c :: run ∧ ucClassChar c = true ∧ run ≠ [] ∧
      run.all urlSafeChar = true := by
  unfold captureAt at h
  split at h
  · split at h
    · exact absurd h (by simp)
    · rename_i c rest heq
      split at h
      · rename_i hc
        obtain ⟨run, h1, h2, h3⟩ := captureCore_shape h
        exact ⟨c, run, h1, hc, h2, h3⟩
      · exact absurd h (by simp)
  · exact absurd h (by simp)

/-- The leftmost search inherits the capture shape. -/
theorem searchCapture_shape {lit : List Char} {rq : Bool} {l cap : List Char}
    (h : searchCapture lit rq l = some cap) :
    ∃ c run, cap = c :: run ∧ ucClassChar c = true ∧ run ≠ [] ∧
      run.all urlSafeChar = true := by
  induction l with
  | nil => exact captureAt_shape (by simpa [searchCapture] using h)
  | cons a t ih =>
    rw [searchCapture] at h
    split at h
    · rename_i r hr
      cases h
      exact captureAt_shape hr
    · exact ih h

/-- A successful leftmost search yields a string of the class shape. -/
theorem searchCapture_asString_shape {lit : List Char} {rq : Bool}
    {l cap : List Char} (h : searchCapture lit rq l = some cap) :
    matchesIdClassPattern cap.asString = true := by
  obtain ⟨c, run, rfl, hc, hne, hall⟩ := searchCapture_shape h
  simp [matchesIdClassPattern, List.asString, hc, hall, List.isEmpty_iff, hne]

/-- Identifiers found in a script payload have the class shape. -/
theorem findIdInScript_shape {s cid : String} (h : findIdInScript s = some cid) :
    matchesIdClassPattern cid = true := by
  unfold findIdInScript at h
  split at h
  · rename_i r hr
    cases h
    exact searchCapture_asString_shape hr
  · obtain ⟨r, hr, rfl⟩ := Option.map_eq_some'.mp h
    exact searchCapture_asString_shape hr

/-- Identifiers found by the script scan have the class shape. -/
theorem scanScripts_shape {ss : List String} {cid : String}
    (h : scanScripts ss = some cid) : matchesIdClassPattern cid = true := by
  induction ss with
  | nil => exact absurd h (by simp [scanScripts])
  | cons s rest ih =>
    rw [scanScripts] at h
    split at h
    · rename_i r hr
      cases h
      exact findIdInScript_shape hr
    · exact ih h

/-- Identifiers found in the canonical URL have the class shape. -/
theorem searchChannelPath_shape {og cid : String}
    (h : searchChannelPath og = some cid) : matchesIdClassPattern cid = true := by
  unfold searchChannelPath at h
  obtain ⟨r, hr, rfl⟩ := Option.map_eq_some'.mp h
  exact searchCapture_asString_shape hr

/-- Every identifier returned by the extraction has the class shape. -/
theorem get_youtube_channel_id_shape {p? : Option Page} {cid : String}
    (h : get_youtube_channel_id p? = some cid) :
    matchesIdClassPattern cid = true := by
  match p? with
  | none => exact absurd h (by simp [get_youtube_channel_id])
  | some p =>
    rw [get_youtube_channel_id] at h
    split at h
    · rename_i og hog
      split at h
      · rename_i c hc
        cases h
        exact searchChannelPath_shape hc
      · exact scanScripts_shape h
    · exact scanScripts_shape h

/-! ## Claims C1, C2, C10: the extraction function -/

/-- C10: the identifier extraction is total on the absent-page case of its
interface: applied to `none` (the value produced after a failed page
fetch), `get_youtube_channel_id` returns `none` and no error can occur
(totality of the Lean function). -/
theorem c10_extraction_total_on_absent_page :
    get_youtube_channel_id none = none := rfl

/-- C1 counterexample: the claim asserts every returned identifier starts
with the literal two characters "UC" and that text beginning with a single
'C' is never returned; but for a page whose script payload contains
`"channel_id":"Cabc123"` the extraction returns "Cabc123", whose first two
characters are not "UC" (the code validates with the character class
`[UC]`, not the anchored literal prefix). -/
theorem c1_counterexample_single_c_returned :
    get_youtube_channel_id (some ⟨none, ["\"channel_id\":\"Cabc123\""]⟩)
      = some "Cabc123"
    ∧ "UC".data.isPrefixOf "Cabc123".data = false := by
  constructor
  · decide
  · decide

/-- C1 (amended): every identifier returned by the resolver's extraction
(from the canonical-URL field or from a script payload) matches the
identifier-shape pattern `^[UC][A-Za-z0-9_-]+$` read with its actual
character-class semantics: one leading character that is 'U' or 'C',
followed by at least one URL-safe character.  The full literal prefix "UC"
is NOT enforced. -/
theorem c1_extracted_id_matches_class_pattern (p? : Option Page) (cid : String)
    (h : get_youtube_channel_id p? = some cid) :
    matchesIdClassPattern cid = true :=
  get_youtube_channel_id_shape h

/-- Witness for the amended C1 theorem at a concrete page document. -/
theorem c1_extracted_id_matches_class_pattern_witness :
    get_youtube_channel_id (some ⟨none, ["\"channelId\":\"UCxyz9\""]⟩)
      = some "UCxyz9"
    ∧ matchesIdClassPattern "UCxyz9" = true :=
  ⟨by decide,
    c1_extracted_id_matches_class_pattern
      (some ⟨none, ["\"channelId\":\"UCxyz9\""]⟩) "UCxyz9" (by decide)⟩

/-- C2 counterexample: the claim says the script scan returns the first
identifier in document order matching either pattern; in the payload below
the camel-case pattern with identifier "UCaaa" occurs at the very start
(position 0: it anchors the payload), and the snake-case pattern with
"UCbbb" occurs only later, yet the extraction returns "UCbbb", because
within each payload the snake-case pattern is tried first. -/
theorem c2_counterexample_pattern_priority :
    get_youtube_channel_id
        (some ⟨none, ["\"channelId\":\"UCaaa\" x \"channel_id\":\"UCbbb\""]⟩)
      = some "UCbbb"
    ∧ captureAt channelIdCamelLit true
        ("\"channelId\":\"UCaaa\" x \"channel_id\":\"UCbbb\"").data
      = some "UCaaa".data
    ∧ captureAt channelIdSnakeLit true
        ("\"channelId\":\"UCaaa\" x \"channel_id\":\"UCbbb\"").data = none
    ∧ "UCbbb" ≠ "UCaaa" := by
  refine ⟨by decide, by decide, by decide, by decide⟩

/-- C2 (amended): extraction strategies are tried in a fixed order with
first match winning.  A `/channel/` match in the canonical-URL field is
returned immediately, whatever the script payloads contain; when the
canonical field has no `/channel/` match (in particular when it is a
handle URL) or is absent, the result is exactly that of the script scan;
the script scan returns the identifier of the first payload, in document
order, in which either pattern matches — but WITHIN a payload the
snake-case `"channel_id"` pattern takes priority over the camel-case
`"channelId"` pattern regardless of their textual positions; if no
strategy matches, the result is `none`. -/
theorem c2_strategy_order (og s cid c1 : String) (ss pre post : List String) :
    (searchChannelPath og = some cid →
      ∀ scripts : List String,
        get_youtube_channel_id (some ⟨some og, scripts⟩) = some cid)
    ∧ (searchChannelPath og = none →
      get_youtube_channel_id (some ⟨some og, ss⟩) = scanScripts ss)
    ∧ get_youtube_channel_id (some ⟨none, ss⟩) = scanScripts ss
    ∧ ((∀ t ∈ pre, findIdInScript t = none) → findIdInScript s = some c1 →
      scanScripts (pre ++ s :: post) = some c1)
    ∧ (searchCapture channelIdSnakeLit true s.data = some c1.data →
      findIdInScript s = some c1)
    ∧ ((∀ t ∈ ss, findIdInScript t = none) → scanScripts ss = none) := by
  refine ⟨?_, ?_, rfl, ?_, ?_, ?_⟩
  · intro h scripts
    simp [get_youtube_channel_id, h]
  · intro h
    simp [get_youtube_channel_id, h]
  · intro hpre hs
    induction pre with
    | nil => simp [scanScripts, hs]
    | cons t rest ih =>
      have ht : findIdInScript t = none := hpre t (by simp)
      rw [List.cons_append, scanScripts, ht]
      exact ih fun x hx => hpre x (by simp [hx])
  · intro h
    have he : c1.data.asString = c1 := rfl
    simp [findIdInScript, h, he]
  · intro hall
    induction ss with
    | nil => rfl
    | cons t rest ih =>
      rw [scanScripts, hall t (by simp)]
      exact ih fun x hx => hall x (by simp [hx])

/-- Witness for the amended C2 theorem: concrete pages exercising each
hypothesis of the order statement. -/
theorem c2_strategy_order_witness :
    get_youtube_channel_id
        (some ⟨some "https://www.youtube.com/channel/UCmain1", ["\"channelId\":\"UCzz9\""]⟩)
      = some "UCmain1"
    ∧ get_youtube_channel_id
        (some ⟨some "https://www.youtube.com/@foo", ["\"channelId\":\"UCzz9\""]⟩)
      = scanScripts ["\"channelId\":\"UCzz9\""]
    ∧ scanScripts ["no match here", "\"channelId\":\"UCzz9\""] = some "UCzz9"
    ∧ findIdInScript "pre \"channel_id\":\"UCsnake7\" post" = some "UCsnake7"
    ∧ scanScripts ["nothing", "here"] = none := by
  refine ⟨?_, ?_, ?_, ?_, ?_⟩
  · exact (c2_strategy_order "https://www.youtube.com/channel/UCmain1" "" "UCmain1" ""
      ["\"channelId\":\"UCzz9\""] [] []).1 (by decide) _
  · exact (c2_strategy_order "https://www.youtube.com/@foo" "" "" ""
      ["\"channelId\":\"UCzz9\""] [] []).2.1 (by decide)
  · exact (c2_strategy_order "" "\"channelId\":\"UCzz9\"" "" "UCzz9" []
      ["no match here"] []).2.2.2.1 (by decide) (by decide)
  · exact (c2_strategy_order "" "pre \"channel_id\":\"UCsnake7\" post" "" "UCsnake7" []
      [] []).2.2.2.2.1 (by decide)
  · exact (c2_strategy_order "" "" "" "" ["nothing", "here"] [] []).2.2.2.2.2 (by decide)

/-! ## Claims C3, C4: the retry policy -/

/-- C3: with `max_attempts = 3`, transient failures (timeout or connection
error) on the first two attempts followed by a success on the third return
the success value with exactly the two backoff waits
`backoff_base ^ 0` and `backoff_base ^ 1`; three transient failures
propagate the transient error with the same two waits and no further
wait. -/
theorem c3_retry_policy_transient {α : Type} (f : Nat → FetchOutcome α) (v : α)
    (b : Nat)
    (h0 : f 0 = .timeout ∨ f 0 = .connError)
    (h1 : f 1 = .timeout ∨ f 1 = .connError) :
    (f 2 = .ok v → retry_request f 3 b = (.ok (some v), [b ^ 0, b ^ 1]))
    ∧ ((f 2 = .timeout ∨ f 2 = .connError) →
      ∃ e : ReqError, e.transient = true ∧
        retry_request f 3 b = (.error e, [b ^ 0, b ^ 1])) := by
  constructor
  · intro h2
    rcases h0 with h0 | h0 <;> rcases h1 with h1 | h1 <;>
      simp [retry_request, retryLoop, h0, h1, h2]
  · intro h2
    rcases h2 with h2 | h2
    · refine ⟨.timeout, rfl, ?_⟩
      rcases h0 with h0 | h0 <;> rcases h1 with h1 | h1 <;>
        simp [retry_request, retryLoop, h0, h1, h2]
    · refine ⟨.connError, rfl, ?_⟩
      rcases h0 with h0 | h0 <;> rcases h1 with h1 | h1 <;>
        simp [retry_request, retryLoop, h0, h1, h2]

/-- Witness for the C3 retry-policy theorem at concrete attempt
functions. -/
theorem c3_retry_policy_transient_witness :
    retry_request (fun k => if k < 2 then FetchOutcome.timeout else .ok 7) 3 2
      = (.ok (some 7), [1, 2])
    ∧ ∃ e : ReqError, e.transient = true ∧
        retry_request (fun _ => (FetchOutcome.connError : FetchOutcome Nat)) 3 2
          = (.error e, [1, 2]) := by
  constructor
  · have h := (c3_retry_policy_transient
      (fun k => if k < 2 then FetchOutcome.timeout else .ok 7) 7 2
      (Or.inl (by decide)) (Or.inl (by decide))).1 (by decide)
    simpa using h
  · have h := (c3_retry_policy_transient
      (fun _ => (FetchOutcome.connError : FetchOutcome Nat)) 0 2
      (Or.inr rfl) (Or.inr rfl)).2 (Or.inr rfl)
    simpa using h

/-- C4: a non-transient HTTP status error on an attempt stops the retry
loop at once: with the error on the first attempt the wrapper performs no
backoff wait and propagates the error with its status code, for any
`max_attempts ≥ 1`; in particular a feed fetch whose first attempt yields
HTTP 429 fails immediately, with no retry and no wait, and is classified
with the rate-limit-specific message. -/
theorem c4_http_error_no_retry {α : Type} (f : Nat → FetchOutcome α)
    (g : Nat → FetchOutcome (List Entry)) (s n b limit : Nat)
    (hn : 1 ≤ n) (hf : f 0 = .httpError s) (hg : g 0 = .httpError 429) :
    retry_request f n b = (.error (.httpError s), [])
    ∧ fetch_rss_feed_content g limit = (none, .rateLimited429, []) := by
  constructor
  · obtain ⟨m, rfl⟩ : ∃ m, n = m + 1 := ⟨n - 1, by omega⟩
    simp [retry_request, retryLoop, hf]
  · simp [fetch_rss_feed_content, retry_request, retryLoop, hg]

/-- Witness for the C4 theorem at concrete attempt functions, statuses and
limits. -/
theorem c4_http_error_no_retry_witness :
    retry_request (fun _ => (FetchOutcome.httpError 404 : FetchOutcome Nat)) 3 2
      = (.error (.httpError 404), [])
    ∧ fetch_rss_feed_content (fun _ => FetchOutcome.httpError 429) 5
      = (none, .rateLimited429, []) :=
  c4_http_error_no_retry (fun _ => (FetchOutcome.httpError 404 : FetchOutcome Nat))
    (fun _ => FetchOutcome.httpError 429) 404 3 2 5 (by decide) rfl rfl

/-! ## Claims C6, C9, C8: the cache store -/

/-- A string of the identifier shape is nonempty. -/
theorem idPattern_ne_empty {c : String} (h : matchesIdClassPattern c = true) :
    c ≠ "" := by
  intro hc
  rw [hc] at h
  exact absurd h (by decide)

/-- Writing a key and reading it back yields the written value. -/
theorem lookupAssoc_assocSet (cache : List (String × CacheVal)) (key : String)
    (v : CacheVal) : lookupAssoc (assocSet cache key v) key = some v := by
  induction cache with
  | nil => simp [assocSet, lookupAssoc]
  | cons kv rest ih =>
    obtain ⟨k, w⟩ := kv
    by_cases hk : k = key
    · simp [assocSet, hk, lookupAssoc]
    · simp [assocSet, hk, lookupAssoc, ih]

/-- C6: cache lookup normalizes both record shapes transparently: for an
identifier of the platform shape stored for a reference either as a legacy
bare string or as a structured record with a `channel_id` field, `lookup`
returns the identifier, and the two lookups agree. -/
theorem c6_cache_lookup_normalizes (cache : List (String × CacheVal))
    (url c ts : String) (hc : matchesIdClassPattern c = true) :
    (lookupAssoc cache url = some (.str c) →
      get_cached_channel_id cache url true = some (.str c))
    ∧ (lookupAssoc cache url = some (.dict [("channel_id", c), ("timestamp", ts)]) →
      get_cached_channel_id cache url true = some (.str c))
    ∧ get_cached_channel_id [(url, .str c)] url true
      = get_cached_channel_id [(url, .dict [("channel_id", c), ("timestamp", ts)])] url true := by
  have hne : c ≠ "" := idPattern_ne_empty hc
  refine ⟨?_, ?_, ?_⟩
  · intro h
    simp [get_cached_channel_id, h, truthyVal, hne]
  · intro h
    simp [get_cached_channel_id, h, truthyVal, fieldLookup]
  · simp [get_cached_channel_id, lookupAssoc, truthyVal, hne, fieldLookup]

/-- Witness for the C6 normalization theorem at a concrete reference and
identifier. -/
theorem c6_cache_lookup_normalizes_witness :
    get_cached_channel_id [("https://x/@foo", .str "UC999")] "https://x/@foo" true
      = some (.str "UC999")
    ∧ get_cached_channel_id
        [("https://x/@foo", .dict [("channel_id", "UC999"), ("timestamp", "t")])]
        "https://x/@foo" true
      = some (.str "UC999") := by
  have h := c6_cache_lookup_normalizes [("https://x/@foo", .str "UC999")]
    "https://x/@foo" "UC999" "t" (by decide)
  refine ⟨h.1 (by decide), ?_⟩
  have h2 := c6_cache_lookup_normalizes
    [("https://x/@foo", .dict [("channel_id", "UC999"), ("timestamp", "t")])]
    "https://x/@foo" "UC999" "t" (by decide)
  exact h2.2.1 (by decide)

/-- C9: a cache record that is present but falsy (in particular the legacy
bare empty string) is reported as a cache miss by the lookup, and the
resolution step then performs a full re-resolution through the fetch path
instead of propagating the empty identifier. -/
theorem c9_falsy_cache_record_is_miss (cache : List (String × CacheVal))
    (url now : String) (v : CacheVal) (page : Option Page)
    (h : lookupAssoc cache url = some v) (hf : truthyVal v = false) :
    get_cached_channel_id cache url true = none
    ∧ resolveChannelId cache url true page now
      = resolveFetchPath cache url true page now := by
  have hmiss : get_cached_channel_id cache url true = none := by
    simp [get_cached_channel_id, h, hf]
  exact ⟨hmiss, by simp [resolveChannelId, hmiss, channelIdTruthy]⟩

/-- Witness for the C9 theorem: an empty cached identifier is a miss and
triggers the fetch path. -/
theorem c9_falsy_cache_record_is_miss_witness :
    get_cached_channel_id [("u", .str "")] "u" true = none
    ∧ resolveChannelId [("u", .str "")] "u" true none "t"
      = resolveFetchPath [("u", .str "")] "u" true none "t" :=
  c9_falsy_cache_record_is_miss [("u", .str "")] "u" "t" (.str "") none
    (by decide) (by decide)

/-- C8: a successful first resolution stores the extracted identifier and
returns it with exactly one page fetch; a second resolution of the same
reference with caching enabled returns exactly that identifier from the
cache, leaves the cache unchanged, and performs zero page fetches (no
network request), whatever page document the second run would have seen. -/
theorem c8_cache_roundtrip_short_circuits (cache : List (String × CacheVal))
    (url now now2 : String) (c : String) (p : Page) (page2 : Option Page)
    (hmiss : get_cached_channel_id cache url true = none)
    (hx : get_youtube_channel_id (some p) = some c) :
    resolveChannelId cache url true (some p) now
      = (some (.str c), cache_channel_id cache url c now, 1)
    ∧ resolveChannelId (cache_channel_id cache url c now) url true page2 now2
      = (some (.str c), cache_channel_id cache url c now, 0) := by
  have hne : c ≠ "" := idPattern_ne_empty (get_youtube_channel_id_shape hx)
  constructor
  · simp [resolveChannelId, hmiss, channelIdTruthy, resolveFetchPath, hx, hne]
  · have hl : lookupAssoc (cache_channel_id cache url c now) url
        = some (.dict [("channel_id", c), ("timestamp", now)]) :=
      lookupAssoc_assocSet cache url _
    have hcached : get_cached_channel_id (cache_channel_id cache url c now) url true
        = some (.str c) := by
      simp [get_cached_channel_id, hl, truthyVal, fieldLookup]
    simp [resolveChannelId, hcached, channelIdTruthy, truthyVal, hne]

/-- Witness for the C8 round-trip theorem: the spec's end-to-end scenario B
with a concrete page containing a script-payload identifier. -/
theorem c8_cache_roundtrip_short_circuits_witness :
    resolveChannelId [] "https://x/@foo" true
        (some ⟨none, ["\"channel_id\":\"UC999\""]⟩) "t0"
      = (some (.str "UC999"), cache_channel_id [] "https://x/@foo" "UC999" "t0", 1)
    ∧ resolveChannelId (cache_channel_id [] "https://x/@foo" "UC999" "t0")
        "https://x/@foo" true none "t1"
      = (some (.str "UC999"), cache_channel_id [] "https://x/@foo" "UC999" "t0", 0) :=
  c8_cache_roundtrip_short_circuits [] "https://x/@foo" "t0" "t1" "UC999"
    ⟨none, ["\"channel_id\":\"UC999\""]⟩ none (by decide) (by decide)

/-! ## Claims C5, C7: filter semantics -/

/-- Spec-side retention predicate, written from the spec's words (section
4.4): an entry is retained exactly when every active predicate holds —
published date on or after the `after` bound, on or before the `before`
bound, equal to the legacy exact date when the mode is "date", and
case-insensitive title containment when the mode is "title" — all
combined by logical AND. -/
def retainedSpec (filter_by filter_value : Option String)
    (after_dt before_dt : Option Date) (e : Entry) : Bool :=
  match strptimeDateTz e.published with
  | none => false
  | some d =>
    after_dt.all (fun a => dateLe a d) &&
    before_dt.all (fun b => dateLe d b) &&
    (if filter_by = some "date" then
      (filter_value.bind strptimeDate).all (fun fd => decide (d = fd))
    else true) &&
    (if filter_by = some "title" then
      filter_value.all (fun v => containsSub (strLower v) (strLower e.title))
    else true)

/-- One step of the entry loop agrees with filtering by the spec
predicate, for an entry whose published date parses and criteria whose
needed legacy values are present and parseable. -/
theorem filterEntryStep_retained (fb fv : Option String) (aD bD : Option Date)
    (e : Entry) (r : Except FilterError (List Entry)) (d : Date)
    (hd : strptimeDateTz e.published = some d)
    (hleg : fb = some "date" → ∃ v fd, fv = some v ∧ strptimeDate v = some fd)
    (htit : fb = some "title" → ∃ v, fv = some v) :
    filterEntryStep fb fv aD bD e r =
      if retainedSpec fb fv aD bD e then r.map (e :: ·) else r := by
  rw [filterEntryStep.eq_def, hd]
  unfold retainedSpec
  rw [hd]
  dsimp only
  by_cases hA : aD.any (fun a => dateLt d a) = true
  · have hA2 : aD.all (fun a => dateLe a d) = false := by
      cases aD with
      | none => simp at hA
      | some a =>
        simp only [Option.any_some] at hA
        simp [dateLe, hA]
    simp [hA, hA2]
  · have hA2 : aD.all (fun a => dateLe a d) = true := by
      cases aD with
      | none => rfl
      | some a =>
        simp only [Option.any_some] at hA
        simp [dateLe, hA]
    rw [if_neg hA, hA2]
    by_cases hB : bD.any (fun b => dateLt b d) = true
    · have hB2 : bD.all (fun b => dateLe d b) = false := by
        cases bD with
        | none => simp at hB
        | some b =>
          simp only [Option.any_some] at hB
          simp [dateLe, hB]
      simp [hB, hB2]
    · have hB2 : bD.all (fun b => dateLe d b) = true := by
        cases bD with
        | none => rfl
        | some b =>
          simp only [Option.any_some] at hB
          simp [dateLe, hB]
      rw [if_neg hB, hB2]
      by_cases hfb : fb = some "date"
      · obtain ⟨v, fd, rfl, hv⟩ := hleg hfb
        have hnt : ¬(fb = some "title") := by simp [hfb]
        rw [if_pos hfb, if_pos hfb, if_neg hnt]
        by_cases hdfd : d = fd
        · simp [hv, hdfd]
        · simp [hv, hdfd]
      · rw [if_neg hfb, if_neg hfb]
        by_cases htb : fb = some "title"
        · obtain ⟨v, rfl⟩ := htit htb
          rw [if_pos htb, if_pos htb]
          by_cases hct : containsSub (strLower v) (strLower e.title) = true
          · simp [hct]
          · simp [hct]
        · rw [if_neg htb, if_neg htb]
          simp

/-- The entry loop equals `List.filter` by the spec predicate on
well-formed input. -/
theorem filterLoop_eq_filter (fb fv : Option String) (aD bD : Option Date)
    (entries : List Entry)
    (hpub : ∀ e ∈ entries, (strptimeDateTz e.published).isSome = true)
    (hleg : fb = some "date" → ∃ v fd, fv = some v ∧ strptimeDate v = some fd)
    (htit : fb = some "title" → ∃ v, fv = some v) :
    filterLoop fb fv aD bD entries
      = .ok (entries.filter (retainedSpec fb fv aD bD)) := by
  induction entries with
  | nil => rfl
  | cons e rest ih =>
    obtain ⟨d, hd⟩ := Option.isSome_iff_exists.mp (hpub e (by simp))
    have hrest := ih fun x hx => hpub x (by simp [hx])
    rw [filterLoop, filterEntryStep_retained fb fv aD bD e _ d hd hleg htit,
      List.filter_cons]
    by_cases hr : retainedSpec fb fv aD bD e = true
    · simp [hr, hrest, Except.map]
    · simp [hr, hrest]

/-- The spec predicate with both bounds is the conjunction of the spec
predicates with each single bound. -/
theorem retainedSpec_bounds_split (fb fv : Option String) (aD bD : Option Date)
    (e : Entry) :
    retainedSpec fb fv aD bD e
      = (retainedSpec fb fv aD none e && retainedSpec fb fv none bD e) := by
  unfold retainedSpec
  cases strptimeDateTz e.published with
  | none => rfl
  | some d =>
    cases aD.all (fun a => dateLe a d) <;>
      cases bD.all (fun b => dateLe d b) <;>
        cases hc : (if fb = some "date" then
            (fv.bind strptimeDate).all (fun fd => decide (d = fd)) else true) <;>
          cases ht : (if fb = some "title" then
              fv.all (fun v => containsSub (strLower v) (strLower e.title))
            else true) <;>
            simp [hc, ht]

/-- An entry whose published date falls outside either active bound is not
retained by the spec predicate. -/
theorem retainedSpec_false_of_out_of_bounds (fb fv : Option String)
    (aD bD : Option Date) (e : Entry) (d : Date)
    (hd : strptimeDateTz e.published = some d)
    (hout : (aD.any (fun a => dateLt d a) || bD.any (fun b => dateLt b d)) = true) :
    retainedSpec fb fv aD bD e = false := by
  unfold retainedSpec
  rw [hd]
  rcases Bool.or_eq_true_iff.mp hout with h | h
  · have : aD.all (fun a => dateLe a d) = false := by
      cases aD with
      | none => simp at h
      | some a =>
        simp only [Option.any_some] at h
        simp [dateLe, h]
    simp [this]
  · have : bD.all (fun b => dateLe d b) = false := by
      cases bD with
      | none => simp at h
      | some b =>
        simp only [Option.any_some] at h
        simp [dateLe, h]
    simp [this]

/-- C5: on well-formed input (both bounds absent or parseable, every
entry's publish date parseable, the legacy value present and — for mode
"date" — parseable), `filter_videos` returns exactly the ordered
subsequence of entries satisfying the logical AND of all active predicates
(inclusive after bound, inclusive before bound, legacy exact date, legacy
case-insensitive title containment); every entry within both inclusive
bounds that passes the other active predicates is in the result, every
entry outside either bound is not, and the both-bounds result contains
precisely the entries common to the two single-bound results. -/
theorem c5_filter_and_semantics (entries : List Entry)
    (fb fv aS bS : Option String) (aD bD : Option Date)
    (hA : parseBound .badAfterDate aS = .ok aD)
    (hB : parseBound .badBeforeDate bS = .ok bD)
    (hpub : ∀ e ∈ entries, (strptimeDateTz e.published).isSome = true)
    (hleg : fb = some "date" → ∃ v fd, fv = some v ∧ strptimeDate v = some fd)
    (htit : fb = some "title" → ∃ v, fv = some v) :
    filter_videos entries fb fv aS bS
      = .ok (entries.filter (retainedSpec fb fv aD bD))
    ∧ (entries.filter (retainedSpec fb fv aD bD)).Sublist entries
    ∧ (∀ e ∈ entries, retainedSpec fb fv aD bD e = true →
        e ∈ entries.filter (retainedSpec fb fv aD bD))
    ∧ (∀ e ∈ entries, ∀ d, strptimeDateTz e.published = some d →
        (aD.any (fun a => dateLt d a) || bD.any (fun b => dateLt b d)) = true →
        e ∉ entries.filter (retainedSpec fb fv aD bD))
    ∧ (∀ x : Entry,
        x ∈ entries.filter (retainedSpec fb fv aD bD) ↔
          x ∈ entries.filter (retainedSpec fb fv aD none) ∧
            x ∈ entries.filter (retainedSpec fb fv none bD))
    ∧ filter_videos entries fb fv aS none
        = .ok (entries.filter (retainedSpec fb fv aD none))
    ∧ filter_videos entries fb fv none bS
        = .ok (entries.filter (retainedSpec fb fv none bD)) := by
  refine ⟨?_, List.filter_sublist _, ?_, ?_, ?_, ?_, ?_⟩
  · simp only [filter_videos, hA, hB]
    exact filterLoop_eq_filter fb fv aD bD entries hpub hleg htit
  · intro e he hr
    exact List.mem_filter.mpr ⟨he, hr⟩
  · intro e he d hd hout hmem
    have hfalse := retainedSpec_false_of_out_of_bounds fb fv aD bD e d hd hout
    have := (List.mem_filter.mp hmem).2
    rw [hfalse] at this
    exact Bool.false_ne_true this
  · intro x
    constructor
    · intro hx
      obtain ⟨hmem, hp⟩ := List.mem_filter.mp hx
      rw [retainedSpec_bounds_split] at hp
      obtain ⟨h1, h2⟩ := Bool.and_eq_true_iff.mp hp
      exact ⟨List.mem_filter.mpr ⟨hmem, h1⟩, List.mem_filter.mpr ⟨hmem, h2⟩⟩
    · rintro ⟨h1, h2⟩
      obtain ⟨hmem, hp1⟩ := List.mem_filter.mp h1
      obtain ⟨_, hp2⟩ := List.mem_filter.mp h2
      refine List.mem_filter.mpr ⟨hmem, ?_⟩
      rw [retainedSpec_bounds_split, hp1, hp2]
      rfl
  · have hnone : parseBound FilterError.badBeforeDate none = .ok none := rfl
    simp only [filter_videos, hA, hnone]
    exact filterLoop_eq_filter fb fv aD none entries hpub hleg htit
  · have hnone : parseBound FilterError.badAfterDate none = .ok none := rfl
    simp only [filter_videos, hB, hnone]
    exact filterLoop_eq_filter fb fv none bD entries hpub hleg htit

/-- Witness for the C5 theorem: three concrete entries, a date range
keeping the middle and late ones, and the evaluated outputs of the three
filter runs. -/
theorem c5_filter_and_semantics_witness :
    filter_videos
        [⟨"Alpha", "2023-03-01T10:00:00+00:00", "l1"⟩,
         ⟨"Beta", "2023-05-01T10:00:00+00:00", "l2"⟩,
         ⟨"Gamma", "2023-08-01T10:00:00+00:00", "l3"⟩]
        none none (some "2023-04-01") (some "2023-09-01")
      = .ok [⟨"Beta", "2023-05-01T10:00:00+00:00", "l2"⟩,
             ⟨"Gamma", "2023-08-01T10:00:00+00:00", "l3"⟩]
    ∧ (∀ x : Entry,
        x ∈ ([⟨"Alpha", "2023-03-01T10:00:00+00:00", "l1"⟩,
              ⟨"Beta", "2023-05-01T10:00:00+00:00", "l2"⟩,
              ⟨"Gamma", "2023-08-01T10:00:00+00:00", "l3"⟩] :
            List Entry).filter
            (retainedSpec none none (some ⟨2023, 4, 1⟩) (some ⟨2023, 9, 1⟩)) ↔
          x ∈ ([⟨"Alpha", "2023-03-01T10:00:00+00:00", "l1"⟩,
                ⟨"Beta", "2023-05-01T10:00:00+00:00", "l2"⟩,
                ⟨"Gamma", "2023-08-01T10:00:00+00:00", "l3"⟩] :
              List Entry).filter
              (retainedSpec none none (some ⟨2023, 4, 1⟩) none) ∧
            x ∈ ([⟨"Alpha", "2023-03-01T10:00:00+00:00", "l1"⟩,
                  ⟨"Beta", "2023-05-01T10:00:00+00:00", "l2"⟩,
                  ⟨"Gamma", "2023-08-01T10:00:00+00:00", "l3"⟩] :
                List Entry).filter
                (retainedSpec none none none (some ⟨2023, 9, 1⟩))) := by
  have h := c5_filter_and_semantics
    [⟨"Alpha", "2023-03-01T10:00:00+00:00", "l1"⟩,
     ⟨"Beta", "2023-05-01T10:00:00+00:00", "l2"⟩,
     ⟨"Gamma", "2023-08-01T10:00:00+00:00", "l3"⟩]
    none none (some "2023-04-01") (some "2023-09-01")
    (some ⟨2023, 4, 1⟩) (some ⟨2023, 9, 1⟩)
    rfl rfl (by decide) (by simp) (by simp)
  refine ⟨?_, h.2.2.2.2.1⟩
  have hlist :
      ([⟨"Alpha", "2023-03-01T10:00:00+00:00", "l1"⟩,
        ⟨"Beta", "2023-05-01T10:00:00+00:00", "l2"⟩,
        ⟨"Gamma", "2023-08-01T10:00:00+00:00", "l3"⟩] :
          List Entry).filter
          (retainedSpec none none (some ⟨2023, 4, 1⟩) (some ⟨2023, 9, 1⟩))
        = [⟨"Beta", "2023-05-01T10:00:00+00:00", "l2"⟩,
           ⟨"Gamma", "2023-08-01T10:00:00+00:00", "l3"⟩] := by decide
  rw [h.1, hlist]

/-- If the loop on the remaining entries raises, the step for one more
entry still raises (every branch either raises itself or passes the rest
result through). -/
theorem filterEntryStep_error (fb fv : Option String) (aD bD : Option Date)
    (e : Entry) (err : FilterError) :
    ∃ err2, filterEntryStep fb fv aD bD e (.error err) = .error err2 := by
  rw [filterEntryStep.eq_def]
  repeat' split
  all_goals exact ⟨_, rfl⟩

/-- A malformed published timestamp anywhere in the list makes the entry
loop raise (it is never skipped). -/
theorem filterLoop_error_of_badPublished (fb fv : Option String)
    (aD bD : Option Date) (entries : List Entry)
    (h : ∃ e ∈ entries, strptimeDateTz e.published = none) :
    ∃ err, filterLoop fb fv aD bD entries = .error err := by
  induction entries with
  | nil =>
    obtain ⟨e, he, _⟩ := h
    exact absurd he (by simp)
  | cons e rest ih =>
    obtain ⟨x, hx, hnone⟩ := h
    cases hd : strptimeDateTz e.published with
    | none => exact ⟨.badPublished, by simp [filterLoop, filterEntryStep, hd]⟩
    | some d =>
      have hxr : x ∈ rest := by
        rcases List.mem_cons.mp hx with rfl | hxr
        · rw [hd] at hnone
          exact absurd hnone (by simp)
        · exact hxr
      obtain ⟨err, herr⟩ := ih ⟨x, hxr, hnone⟩
      rw [filterLoop, herr]
      exact filterEntryStep_error fb fv aD bD e err

/-- An unparseable legacy exact-date value makes the entry loop raise as
soon as some entry survives the range tests and reaches the
`strptime(filter_value)` call. -/
theorem filterLoop_error_of_badFilterValue (fv' : String) (aD bD : Option Date)
    (entries : List Entry) (hfv : strptimeDate fv' = none)
    (hwit : ∃ e ∈ entries, ∃ d, strptimeDateTz e.published = some d ∧
      aD.any (fun a => dateLt d a) = false ∧ bD.any (fun b => dateLt b d) = false) :
    ∃ err, filterLoop (some "date") (some fv') aD bD entries = .error err := by
  induction entries with
  | nil =>
    obtain ⟨e, he, _⟩ := hwit
    exact absurd he (by simp)
  | cons e rest ih =>
    cases hd : strptimeDateTz e.published with
    | none => exact ⟨.badPublished, by simp [filterLoop, filterEntryStep, hd]⟩
    | some d =>
      by_cases hin : aD.any (fun a => dateLt d a) = false ∧
          bD.any (fun b => dateLt b d) = false
      · refine ⟨.badFilterValue, ?_⟩
        rw [filterLoop]
        simp [filterEntryStep, hd, hin.1, hin.2, hfv]
      · obtain ⟨x, hx, d', hd', hA', hB'⟩ := hwit
        have hxr : x ∈ rest := by
          rcases List.mem_cons.mp hx with rfl | hxr
          · rw [hd] at hd'
            injection hd' with hh
            subst hh
            exact absurd ⟨hA', hB'⟩ hin
          · exact hxr
        obtain ⟨err, herr⟩ := ih ⟨x, hxr, d', hd', hA', hB'⟩
        rw [filterLoop, herr]
        exact filterEntryStep_error _ _ aD bD e err

/-- C7: malformed dates are a hard failure of filtering, never skipped or
defaulted: a nonempty unparseable after bound raises; a nonempty
unparseable before bound raises (once the after bound has been accepted);
an unparseable published timestamp on any entry raises; and in "date"
mode an unparseable legacy value raises as soon as some entry survives the
range tests (so the value's `strptime` call is reached). -/
theorem c7_malformed_dates_raise (entries : List Entry)
    (fb fv aS bS : Option String) (s v : String) (aD bD : Option Date) :
    (s ≠ "" → strptimeDate s = none →
      filter_videos entries fb fv (some s) bS = .error .badAfterDate)
    ∧ (parseBound .badAfterDate aS = .ok aD → s ≠ "" → strptimeDate s = none →
      filter_videos entries fb fv aS (some s) = .error .badBeforeDate)
    ∧ (parseBound .badAfterDate aS = .ok aD →
      parseBound .badBeforeDate bS = .ok bD →
      (∃ e ∈ entries, strptimeDateTz e.published = none) →
      ∃ err, filter_videos entries fb fv aS bS = .error err)
    ∧ (parseBound .badAfterDate aS = .ok aD →
      parseBound .badBeforeDate bS = .ok bD →
      strptimeDate v = none →
      (∃ e ∈ entries, ∃ d, strptimeDateTz e.published = some d ∧
        aD.any (fun a => dateLt d a) = false ∧
        bD.any (fun b => dateLt b d) = false) →
      ∃ err, filter_videos entries (some "date") (some v) aS bS = .error err) := by
  refine ⟨?_, ?_, ?_, ?_⟩
  · intro hs hn
    simp [filter_videos, parseBound, hs, hn]
  · intro hA hs hn
    simp only [filter_videos, hA]
    simp [parseBound, hs, hn]
  · intro hA hB hex
    obtain ⟨err, herr⟩ := filterLoop_error_of_badPublished fb fv aD bD entries hex
    refine ⟨err, ?_⟩
    simp only [filter_videos, hA, hB]
    exact herr
  · intro hA hB hv hwit
    obtain ⟨err, herr⟩ := filterLoop_error_of_badFilterValue v aD bD entries hv hwit
    refine ⟨err, ?_⟩
    simp only [filter_videos, hA, hB]
    exact herr

/-- Witness for the C7 theorem: each malformed-date failure mode at a
concrete input. -/
theorem c7_malformed_dates_raise_witness :
    filter_videos [] none none (some "2023-13-01") none = .error .badAfterDate
    ∧ filter_videos [] none none none (some "junk") = .error .badBeforeDate
    ∧ (∃ err, filter_videos [⟨"T", "not-a-date", "l"⟩] none none none none
        = .error err)
    ∧ (∃ err, filter_videos [⟨"T", "2023-05-01T10:00:00+00:00", "l"⟩]
        (some "date") (some "nonsense") none none = .error err) := by
  refine ⟨?_, ?_, ?_, ?_⟩
  · exact (c7_malformed_dates_raise [] none none none none "2023-13-01" ""
      none none).1 (by decide) (by decide)
  · exact (c7_malformed_dates_raise [] none none none none "junk" ""
      none none).2.1 rfl (by decide) (by decide)
  · exact (c7_malformed_dates_raise [⟨"T", "not-a-date", "l"⟩] none none none
      none "" "" none none).2.2.1 rfl rfl
      ⟨⟨"T", "not-a-date", "l"⟩, by simp, by decide⟩
  · exact (c7_malformed_dates_raise [⟨"T", "2023-05-01T10:00:00+00:00", "l"⟩]
      none none none none "" "nonsense" none none).2.2.2 rfl rfl (by decide)
      ⟨⟨"T", "2023-05-01T10:00:00+00:00", "l"⟩, by simp,
        ⟨2023, 5, 1⟩, by decide, by decide, by decide⟩
